import Mathlib

/-!
Shallow embedding of the real-time messaging subsystem of the
django-react-fullstack-socialmedia-app backend (Django + Channels).

Python strings are modelled as Lean `String`; user identities are usernames
(`MyUser.username` is the primary key, base/models.py:6).  The resolved
connection user is `Option String` (`none` plays the role of Django
`AnonymousUser`).  The external follow graph is a parameter
`follows : String → String → Bool`, where `follows a b` means the row
"a is in b.followers", i.e. a follows b (base/models.py:9).  The user table
is a parameter `userExists : String → Bool` standing for
`MyUser.objects.get(username=...)` succeeding.

Python string primitives (`str.split`, `str.strip`, `len`) are embedded as
structurally recursive functions over `String.data`, so that every
definition evaluates inside the kernel.  Fallible Python code is embedded
with `Except Unit`: `.error ()` marks an uncaught exception propagating to
the caller.
-/

deriving instance DecidableEq for Except

namespace SocialChat

/-! ## Python string primitives -/

/-- Python `<` on strings: lexicographic comparison by code point,
structural so that it evaluates in the kernel. -/
def pyLtChars : List Char → List Char → Bool
  | [], [] => false
  | [], _ :: _ => true
  | _ :: _, [] => false
  | a :: as, b :: bs =>
      if a.toNat < b.toNat then true
      else if b.toNat < a.toNat then false
      else pyLtChars as bs

/-- Embedding of Python `a < b` on strings. -/
def pyLt (a b : String) : Bool := pyLtChars a.data b.data

/-- `str.split(sep)` on a one-character separator, over the character list:
keeps empty fields, total and structural.  `[] ↦ [[]]` matches Python
`"".split(sep) == [""]`. -/
def pySplitChars (sep : Char) : List Char → List (List Char)
  | [] => [[]]
  | c :: cs =>
      match pySplitChars sep cs with
      | [] => if c = sep then [[], []] else [[c]]
      | t :: ts => if c = sep then [] :: t :: ts else (c :: t) :: ts

/-- Embedding of Python `s.split(sep)` for a one-character separator. -/
def pySplit (s : String) (sep : Char) : List String :=
  (pySplitChars sep s.data).map String.mk

/-- Python `str` whitespace for `strip()`. -/
def isPySpace (c : Char) : Bool :=
  c = ' ' || c = '\t' || c = '\n' || c = '\r' || c = '\x0b' || c = '\x0c'

/-- Embedding of Python `s.strip()`: drop leading and trailing whitespace. -/
def pyStrip (s : String) : String :=
  String.mk (((s.data.dropWhile isPySpace).reverse.dropWhile isPySpace).reverse)

/-- Embedding of Python `len(s)`: the number of characters. -/
def pyLen (s : String) : Nat := s.data.length

/-- Embedding of Python `s.split(sep, 1)` restricted to what the code
consumes: `some (before, after)` around the first occurrence of `sep`,
`none` when `sep` does not occur (the `'=' in item` guard is false). -/
def pyBreak1 (sep : Char) : List Char → Option (List Char × List Char)
  | [] => none
  | c :: cs =>
      if c = sep then some ([], cs)
      else (pyBreak1 sep cs).map (fun p => (c :: p.1, p.2))

/-- A 2000-character message body, used to exercise the length boundary of
the chat-message validation. -/
def longContent : String := String.mk (List.replicate 2000 'a')

/-- A 2001-character message body, one over the limit. -/
def overlongContent : String := String.mk (List.replicate 2001 'b')

/-! ## permissions.py -/

/-- Embedding of `check_mutual_follow(user1, user2)`
(messaging/permissions.py:46-65): `False` on self, otherwise both directions
of the follow relation must hold. -/
def check_mutual_follow (follows : String → String → Bool) (u1 u2 : String) : Bool :=
  if u1 = u2 then false
  else follows u1 u2 && follows u2 u1

/-! ## consumers.py — connect path -/

/-- Embedding of `ChatConsumer._check_mutual_follow(other_username)`
(messaging/consumers.py:263-281): look the other user up by username; a
missing user (`MyUser.DoesNotExist`) is caught and yields `False`. -/
def checkMutualFollowDB (follows : String → String → Bool) (userExists : String → Bool)
    (me other : String) : Bool :=
  if userExists other then check_mutual_follow follows me other else false

/-- Embedding of `ChatConsumer._can_join_room` (messaging/consumers.py:243-261).
`participants = self.room_name.split('_')`; a non-participant returns `False`
before any indexing; otherwise the code reads `participants[1]` and
`participants[0]`, so a single-token split raises `IndexError`
(`.error ()`). -/
def canJoinRoom (follows : String → String → Bool) (userExists : String → Bool)
    (username roomName : String) : Except Unit Bool :=
  let participants := pySplit roomName '_'
  if username ∈ participants then
    match participants with
    | p0 :: p1 :: _ =>
        let other := if p1 = username then p0 else p1
        .ok (checkMutualFollowDB follows userExists username other)
    | _ => .error ()
  else .ok false

/-- Outcome of `ChatConsumer.connect` (messaging/consumers.py:29-76):
either `close(code)` before any group membership is taken, or the success
path (`group_add`, `accept`, `user_joined` broadcast), or an uncaught
exception from `_can_join_room`. -/
inductive ConnectResult where
  | closed (code : Nat)
  | joined
  | raisedIndexError
deriving DecidableEq, Repr

/-- Decision logic of `ChatConsumer.connect` (messaging/consumers.py:29-76):
anonymous user → `close(code=4001)`; `_can_join_room` false →
`close(code=4003)`; otherwise join the room group and accept. -/
def connect (follows : String → String → Bool) (userExists : String → Bool)
    (user : Option String) (roomName : String) : ConnectResult :=
  match user with
  | none => .closed 4001
  | some uname =>
      match canJoinRoom follows userExists uname roomName with
      | .error _ => .raisedIndexError
      | .ok true => .joined
      | .ok false => .closed 4003

/-- `group_add` is reached only on the success path (consumers.py:61-64),
after both close branches have returned. -/
def groupAdded : ConnectResult → Bool
  | .joined => true
  | _ => false

/-! ## consumers.py — receive path -/

/-- A group event as put on the channel layer by `group_send`
(messaging/consumers.py:70-76, 86-92, 145-154, 158-190).  The
`chatMessage` dict built at consumers.py:147-153 carries only `content`,
`sender` and `timestamp`: the `message_id` entry is commented out in the
source (line 152), so the constructor has no identifier field. -/
inductive GroupEvent where
  | chatMessage (content sender timestamp : String)
  | typingIndicator (username : String) (isTyping : Bool)
  | readReceipt (reader : String) (messageIds : List String)
  | userJoined (username : String)
  | userLeft (username : String)
deriving DecidableEq, Repr

/-- Result of processing one parsed inbound frame: either an `error` frame
sent over `self.send` to the sending connection only
(`send_error`, consumers.py:288-293), or a `group_send` to the room group.
No constructor touches the conversation store: `_save_message` is commented
out in the source (consumers.py:141-142). -/
inductive RecvResult where
  | senderError (msg : String)
  | broadcast (ev : GroupEvent)
deriving DecidableEq, Repr

/-- Embedding of `ChatConsumer._handle_chat_message`
(messaging/consumers.py:129-154): `content = data.get('content', '').strip()`;
empty content and content longer than 2000 characters are rejected with a
sender-only error; otherwise the message is broadcast.  No database write
occurs (the save call at lines 141-142 is commented out). -/
def handleChatMessage (username now : String) (contentField : Option String) : RecvResult :=
  let content := pyStrip (contentField.getD "")
  if content = "" then .senderError "Message content cannot be empty"
  else if pyLen content > 2000 then .senderError "Message too long (max 2000 characters)"
  else .broadcast (.chatMessage content username now)

/-- The fields of a decoded inbound JSON frame that `receive` consumes:
`data.get('type', 'chat_message')`, `data.get('content', '')`,
`data.get('message_ids', [])` (messaging/consumers.py:116, 131, 181). -/
structure InFrame where
  ty : Option String
  content : Option String
  messageIds : List String
deriving DecidableEq, Repr

/-- Embedding of the dispatch in `ChatConsumer.receive`
(messaging/consumers.py:100-127) on an already-parsed JSON object: the type
discriminator defaults to `"chat_message"`, known types go to their
handlers (`_handle_typing_start` consumers.py:156-165,
`_handle_typing_stop` 167-176, `_handle_mark_read` 178-190), anything else
is answered with a sender-only unknown-type error. -/
def receiveParsed (username now : String) (data : InFrame) : RecvResult :=
  let t := data.ty.getD "chat_message"
  if t = "chat_message" then handleChatMessage username now data.content
  else if t = "typing_start" then .broadcast (.typingIndicator username true)
  else if t = "typing_stop" then .broadcast (.typingIndicator username false)
  else if t = "mark_read" then .broadcast (.readReceipt username data.messageIds)
  else .senderError ("Unknown message type: " ++ t)

/-! ## consumers.py — group-event handlers (fan-out to one socket) -/

/-- An outbound JSON frame written to one WebSocket. -/
inductive OutFrame where
  | chatMessage (content sender timestamp : String) (messageId : Option String)
  | typing (username : String) (isTyping : Bool)
  | readReceipt (reader : String) (messageIds : List String)
  | userJoined (username : String)
  | userLeft (username : String)
  | error (message : String)
deriving DecidableEq, Repr

/-- Embedding of `ChatConsumer.chat_message` (messaging/consumers.py:195-203)
running on the connection of user `me`: sent unconditionally;
`message_id` is `event.get('message_id')`, and since the group event carries
no such key (consumers.py:152 commented out) the field is `none`. -/
def chatMessageWs (_me : String) (content sender timestamp : String) : Option OutFrame :=
  some (.chatMessage content sender timestamp none)

/-- Embedding of `ChatConsumer.typing_indicator`
(messaging/consumers.py:205-213): suppressed on the typing user connection. -/
def typingIndicatorWs (me username : String) (isTyping : Bool) : Option OutFrame :=
  if username ≠ me then some (.typing username isTyping) else none

/-- Embedding of `ChatConsumer.read_receipt` (messaging/consumers.py:215-223):
suppressed on the reader connection. -/
def readReceiptWs (me reader : String) (messageIds : List String) : Option OutFrame :=
  if reader ≠ me then some (.readReceipt reader messageIds) else none

/-- Embedding of `ChatConsumer.user_joined` (messaging/consumers.py:225-231):
suppressed on the joining user connection. -/
def userJoinedWs (me username : String) : Option OutFrame :=
  if username ≠ me then some (.userJoined username) else none

/-- Embedding of `ChatConsumer.user_left` (messaging/consumers.py:233-239):
suppressed on the leaving user connection. -/
def userLeftWs (me username : String) : Option OutFrame :=
  if username ≠ me then some (.userLeft username) else none

/-- Modelled from the spec: the channel layer `group_send` fan-out
(§4.4 Connection Registry, external to src) delivers the event to every
currently joined connection; each connection then runs its per-event
handler.  The result pairs each member username with the frame its socket
receives, dropping members whose handler suppresses delivery. -/
def deliverToGroup (members : List String) (handler : String → Option OutFrame) :
    List (String × OutFrame) :=
  members.filterMap (fun me => (handler me).map (fun f => (me, f)))

/-! ## consumers.py — connect state and disconnect -/

/-- Connection-scoped state set by `connect` before any authorization check
(messaging/consumers.py:39-41): `self.user` and `self.room_group_name` are
assigned unconditionally, ahead of the close branches. -/
structure ConsumerState where
  user : Option String
  roomGroupName : String
deriving DecidableEq, Repr

/-- The state `connect` installs for a connection to `roomName`
(messaging/consumers.py:39-41): `room_group_name = 'chat_' + room_name`. -/
def connectState (user : Option String) (roomName : String) : ConsumerState :=
  { user := user, roomGroupName := "chat_" ++ roomName }

/-- `getattr(self.user, 'username', 'Unknown')` (consumers.py:90): Django
`AnonymousUser` carries `username = ''`, so the attribute always exists and
the `'Unknown'` default is unreachable. -/
def usernameAttr : Option String → String
  | none => ""
  | some u => u

/-- A channel-layer side effect performed by `disconnect`. -/
inductive Effect where
  | groupSend (group : String) (ev : GroupEvent)
  | groupDiscard (group : String)
deriving DecidableEq, Repr

/-- Embedding of `ChatConsumer.disconnect` (messaging/consumers.py:78-98):
when `room_group_name` was assigned (which `connect` does before any check),
broadcast `user_left` to the room group and then `group_discard`.  The
`hasattr` guard is modelled by the `Option` state: `none` stands for a
consumer whose `connect` never ran. -/
def disconnect (st : Option ConsumerState) : List Effect :=
  match st with
  | none => []
  | some s =>
      [.groupSend s.roomGroupName (.userLeft (usernameAttr s.user)),
       .groupDiscard s.roomGroupName]

/-- Modelled from the spec: channel-layer `group_discard` (§4.4: `leave` is
"safe to call on a connection not currently a member"); removing a channel
from a group it never joined simply leaves the membership list unchanged
and never raises, so it is a total function on the registry state. -/
def groupDiscardReg (reg : List (String × String)) (group channel : String) :
    List (String × String) :=
  reg.filter (fun p => !(p.1 = group && p.2 = channel))

/-! ## models.py — Conversation store -/

/-- A `Conversation` row (messaging/models.py:56-91), restricted to the
columns the claims are about: the two participant foreign keys, stored as
usernames (the primary key of `MyUser`). -/
structure Conversation where
  participant_1 : String
  participant_2 : String
deriving DecidableEq, Repr

/-- The participant sort of `get_or_create_between` (models.py:30-34):
`if user1.username < user2.username: p1, p2 = user1, user2 else: p2, p1`. -/
def canonPair (u1 u2 : String) : String × String :=
  if pyLt u1 u2 then (u1, u2) else (u2, u1)

/-- Embedding of `ConversationManager.get_or_create_between(user1, user2)`
(messaging/models.py:16-39): sort the two usernames, then Django
`get_or_create(participant_1=p1, participant_2=p2)` against the table,
modelled as a list of rows: return the first exact ordered match with
`created = False`, else insert the canonical row with `created = True`. -/
def get_or_create_between (db : List Conversation) (u1 u2 : String) :
    (Conversation × Bool) × List Conversation :=
  let p := canonPair u1 u2
  match db.find? (fun c => c.participant_1 = p.1 && c.participant_2 = p.2) with
  | some c => ((c, false), db)
  | none => ((⟨p.1, p.2⟩, true), db ++ [⟨p.1, p.2⟩])

/-- A row holds the unordered pair `{a, b}` (in either column order). -/
def keyPred (a b : String) (c : Conversation) : Bool :=
  (c.participant_1 = a && c.participant_2 = b) ||
  (c.participant_1 = b && c.participant_2 = a)

/-- The number of rows of the table holding the unordered pair `{a, b}`
(in either column order). -/
def keyCount (db : List Conversation) (a b : String) : Nat :=
  (db.filter (keyPred a b)).length

/-- The `UniqueConstraint(fields=['participant_1', 'participant_2'])` of
`Conversation.Meta` (messaging/models.py:81-86): no two rows share the same
ordered column pair. -/
def UniqueOrderedKeys (db : List Conversation) : Prop :=
  db.Pairwise (fun c d => c.participant_1 ≠ d.participant_1 ∨ c.participant_2 ≠ d.participant_2)

/-- Every row is canonically ordered (`participant_1 ≤ participant_2`),
the invariant maintained because all creation goes through
`get_or_create_between` (models.py:30-34; callers views.py:156-159,
views.py:256-259). -/
def CanonRows (db : List Conversation) : Prop :=
  ∀ c ∈ db, pyLt c.participant_2 c.participant_1 = false

/-! ## views.py — MarkMessagesReadView -/

/-- A `Message` row (messaging/models.py:117-143), restricted to the columns
`MarkMessagesReadView` touches; `createdAt`/`readAt` timestamps are
abstract `Nat` ticks. -/
structure MsgRow where
  sender : String
  content : String
  createdAt : Nat
  isRead : Bool
  readAt : Option Nat
deriving DecidableEq, Repr

/-- Embedding of the query in `MarkMessagesReadView.patch`
(messaging/views.py:202-209):
`messages.filter(is_read=False).exclude(sender=reader).update(is_read=True,
read_at=now)` — row by row over the conversation message table, returning
the Django `update` row count together with the new table. -/
def markAllRead (reader : String) (now : Nat) : List MsgRow → Nat × List MsgRow
  | [] => (0, [])
  | m :: ms =>
      let r := markAllRead reader now ms
      if !m.isRead && m.sender ≠ reader then
        (r.1 + 1, { m with isRead := true, readAt := some now } :: r.2)
      else
        (r.1, m :: r.2)

/-- The per-row effect of the `update`: rows matched by the filter are
flipped to read with `read_at` stamped, all other rows are untouched. -/
def markRow (reader : String) (now : Nat) (m : MsgRow) : MsgRow :=
  if !m.isRead && m.sender ≠ reader then { m with isRead := true, readAt := some now } else m

/-! ## middleware.py — JWTAuthMiddleware -/

/-- Python `dict` built by repeated assignment, modelled as the ordered list
of assignments with a last-wins lookup (`d[k] = v` overwrites). -/
def dictGet (d : List (String × String)) (k : String) : Option String :=
  ((d.filter (fun p => p.1 = k)).getLast?).map (fun p => p.2)

/-- Embedding of `JWTAuthMiddleware._parse_cookies(headers)`
(messaging/middleware.py:87-106): for every header named `cookie`, split the
value on `';'`, strip each item, and for each item containing `'='` split
once on `'='` and strip key and value. -/
def parseCookies (headers : List (String × String)) : List (String × String) :=
  headers.foldl (fun acc h =>
    if h.1 = "cookie" then
      acc ++ ((pySplit h.2 ';').filterMap (fun item =>
        let item := pyStrip item
        match pyBreak1 '=' item.data with
        | some kv => some (pyStrip (String.mk kv.1), pyStrip (String.mk kv.2))
        | none => none))
    else acc) []

/-- Embedding of `JWTAuthMiddleware._get_token_from_query(scope)`
(messaging/middleware.py:108-123):
`dict(item.split('=') for item in query_string.split('&') if '=' in item)`.
`item.split('=')` is unbounded, so an item containing more than one `'='`
makes the `dict(...)` constructor raise `ValueError` (`.error ()`);
otherwise look up `'token'`. -/
def getTokenFromQuery (queryString : String) : Except Unit (Option String) :=
  let items := (pySplit queryString '&').filter (fun item => '=' ∈ item.data)
  if items.any (fun item => (pySplit item '=').length > 2) then .error ()
  else
    .ok (dictGet (items.map (fun item =>
      match pySplit item '=' with
      | [k, v] => (k, v)
      | _ => ("", ""))) "token")

/-- Embedding of `get_user_from_token(token_key)`
(messaging/middleware.py:19-46).  The external token verifier is a
parameter `decode : String → Option (Option String)`: `none` stands for
`InvalidToken`/`TokenError` raised by `AccessToken(token_key)`, and
`some claim` for a valid token whose `user_id` claim is `claim` (`none`
when the claim is missing or falsy).  All three failure modes — invalid
token, missing claim, `MyUser.DoesNotExist` — resolve to the anonymous
user (`none`), never an exception. -/
def get_user_from_token (decode : String → Option (Option String))
    (userExists : String → Bool) (tokenKey : String) : Option String :=
  match decode tokenKey with
  | none => none
  | some none => none
  | some (some uid) => if userExists uid then some uid else none

/-- Embedding of `JWTAuthMiddleware.__call__` (messaging/middleware.py:61-85):
`scope['user']` starts anonymous; the token comes from the `access_token`
cookie first, falling back to the `token` query parameter when the cookie
token is missing or falsy (`if not token`); a finally-falsy token leaves the
user anonymous, otherwise `get_user_from_token` resolves it.  The query
parse can raise, which propagates (`Except`). -/
def resolveUser (decode : String → Option (Option String)) (userExists : String → Bool)
    (headers : List (String × String)) (queryString : String) :
    Except Unit (Option String) := do
  let cookieTok := dictGet (parseCookies headers) "access_token"
  let tok ← match cookieTok with
    | some t => if t = "" then getTokenFromQuery queryString else pure (some t)
    | none => getTokenFromQuery queryString
  match tok with
  | some t =>
      if t = "" then pure none
      else pure (get_user_from_token decode userExists t)
  | none => pure none

/-! ## Order lemmas for the Python string comparison -/

theorem char_eq_of_toNat_eq {a b : Char} (h : a.toNat = b.toNat) : a = b :=
  Char.eq_of_val_eq (UInt32.toNat.inj h)

theorem pyLtChars_asymm : ∀ as bs : List Char, pyLtChars as bs = true → pyLtChars bs as = false
  | [], [] => by simp [pyLtChars]
  | [], _ :: _ => by simp [pyLtChars]
  | _ :: _, [] => by simp [pyLtChars]
  | a :: as, b :: bs => by
      simp only [pyLtChars]
      rcases Nat.lt_trichotomy a.toNat b.toNat with h | h | h
      · simp [h, Nat.lt_asymm h]
      · simp [h, Nat.lt_irrefl]
        exact pyLtChars_asymm as bs
      · simp [Nat.lt_asymm h, h]

theorem pyLtChars_eq_of_not_lt :
    ∀ as bs : List Char, pyLtChars as bs = false → pyLtChars bs as = false → as = bs
  | [], [] => by simp
  | [], _ :: _ => by simp [pyLtChars]
  | _ :: _, [] => by simp [pyLtChars]
  | a :: as, b :: bs => by
      simp only [pyLtChars]
      rcases Nat.lt_trichotomy a.toNat b.toNat with h | h | h
      · simp [h]
      · simp only [h, Nat.lt_irrefl, if_false]
        intro h1 h2
        rw [char_eq_of_toNat_eq h, pyLtChars_eq_of_not_lt as bs h1 h2]
      · simp [h, Nat.lt_asymm h]

theorem pyLt_asymm {a b : String} (h : pyLt a b = true) : pyLt b a = false :=
  pyLtChars_asymm _ _ h

theorem pyLt_eq_of_not_lt {a b : String} (h1 : pyLt a b = false) (h2 : pyLt b a = false) :
    a = b :=
  String.ext (pyLtChars_eq_of_not_lt _ _ h1 h2)

/-- The username sort at models.py:30-34 is order-insensitive: swapping the
arguments yields the same canonically ordered pair. -/
theorem canonPair_comm (a b : String) : canonPair a b = canonPair b a := by
  unfold canonPair
  cases hab : pyLt a b with
  | true => simp [hab, pyLt_asymm hab]
  | false =>
      cases hba : pyLt b a with
      | true => simp [hab, hba]
      | false => simp [hab, hba, pyLt_eq_of_not_lt hab hba]

/-- The sorted pair is canonically ordered: its second component is never
Python-less-than its first. -/
theorem canonPair_not_lt (a b : String) : pyLt (canonPair a b).2 (canonPair a b).1 = false := by
  unfold canonPair
  cases hab : pyLt a b with
  | true => simpa using pyLt_asymm hab
  | false => simpa using hab

/-! ## Conversation-store lemmas -/

/-- Two canonically ordered rows holding the same unordered pair are the
same row. -/
theorem matched_rows_eq {a b : String} {c d : Conversation}
    (hc : pyLt c.participant_2 c.participant_1 = false)
    (hd : pyLt d.participant_2 d.participant_1 = false)
    (h1 : keyPred a b c = true) (h2 : keyPred a b d = true) :
    c = d := by
  obtain ⟨c1, c2⟩ := c
  obtain ⟨d1, d2⟩ := d
  simp only [keyPred, Bool.or_eq_true, Bool.and_eq_true, decide_eq_true_eq] at h1 h2
  simp only at hc hd
  rcases h1 with ⟨rfl, rfl⟩ | ⟨rfl, rfl⟩ <;> rcases h2 with ⟨h2a, h2b⟩ | ⟨h2a, h2b⟩
  · rw [h2a, h2b]
  · rw [h2a, h2b] at hd ⊢
    rw [pyLt_eq_of_not_lt hd hc]
  · rw [h2a, h2b] at hd ⊢
    rw [pyLt_eq_of_not_lt hc hd]
  · rw [h2a, h2b]

/-- Under the canonical-row invariant and the ordered uniqueness constraint
of `Conversation.Meta` (models.py:81-86), at most one row holds any given
unordered pair. -/
theorem keyCount_le_one (db : List Conversation) (a b : String)
    (hcanon : CanonRows db) (huniq : UniqueOrderedKeys db) :
    keyCount db a b ≤ 1 := by
  induction db with
  | nil => simp [keyCount]
  | cons c cs ih =>
      have hc : CanonRows cs := fun d hd => hcanon d (List.mem_cons_of_mem c hd)
      have hrel := (List.pairwise_cons.mp huniq).1
      have hu : UniqueOrderedKeys cs := (List.pairwise_cons.mp huniq).2
      by_cases hm : keyPred a b c = true
      · have hnone : ∀ d ∈ cs, ¬(keyPred a b d = true) := by
          intro d hd hdm
          have heq : c = d :=
            matched_rows_eq (hcanon c (List.mem_cons_self c cs))
              (hcanon d (List.mem_cons_of_mem c hd)) hm hdm
          rcases hrel d hd with hne | hne <;> exact hne (by rw [heq])
        have hzero : keyCount cs a b = 0 := by
          unfold keyCount
          rw [List.length_eq_zero, List.filter_eq_nil_iff]
          exact hnone
        have hstep : keyCount (c :: cs) a b = keyCount cs a b + 1 := by
          unfold keyCount
          rw [List.filter_cons_of_pos hm]
          rfl
        omega
      · have hstep : keyCount (c :: cs) a b = keyCount cs a b := by
          unfold keyCount
          rw [List.filter_cons_of_neg hm]
        rw [hstep]
        exact ih hc hu

/-- Appending a fresh canonical row keeps both store invariants. -/
theorem insert_row_preserves (db : List Conversation) (q1 q2 : String)
    (hcanon : CanonRows db) (huniq : UniqueOrderedKeys db)
    (hq : pyLt q2 q1 = false)
    (hfind : db.find? (fun c => c.participant_1 = q1 && c.participant_2 = q2) = none) :
    CanonRows (db ++ [⟨q1, q2⟩]) ∧ UniqueOrderedKeys (db ++ [⟨q1, q2⟩]) := by
  constructor
  · intro d hd
    rcases List.mem_append.mp hd with h | h
    · exact hcanon d h
    · have : d = ⟨q1, q2⟩ := by simpa using h
      rw [this]
      exact hq
  · unfold UniqueOrderedKeys
    rw [List.pairwise_append]
    refine ⟨huniq, List.pairwise_singleton _ _, ?_⟩
    intro x hx y hy
    have hy' : y = ⟨q1, q2⟩ := by simpa using hy
    have hx' := List.find?_eq_none.mp hfind x hx
    simp only [Bool.and_eq_true, decide_eq_true_eq, not_and] at hx'
    rw [hy']
    by_cases h1 : x.participant_1 = q1
    · exact Or.inr (hx' h1)
    · exact Or.inl h1

/-- Argument order does not matter to `get_or_create_between`: the result
(conversation, created flag and table) is the same both ways. -/
theorem get_or_create_between_symm (db : List Conversation) (a b : String) :
    get_or_create_between db a b = get_or_create_between db b a := by
  simp only [get_or_create_between, canonPair_comm a b]

/-- `get_or_create_between` preserves both store invariants. -/
theorem get_or_create_db_preserves (db : List Conversation) (a b : String)
    (hcanon : CanonRows db) (huniq : UniqueOrderedKeys db) :
    CanonRows (get_or_create_between db a b).2
    ∧ UniqueOrderedKeys (get_or_create_between db a b).2 := by
  simp only [get_or_create_between]
  cases hfind : db.find? (fun c =>
      c.participant_1 = (canonPair a b).1 && c.participant_2 = (canonPair a b).2) with
  | some c => exact ⟨hcanon, huniq⟩
  | none =>
      exact insert_row_preserves db (canonPair a b).1 (canonPair a b).2 hcanon huniq
        (canonPair_not_lt a b) hfind

/-- C4: for distinct identities `a` and `b`, `get_or_create_between` is
order-insensitive (the pair is canonicalized by sorting usernames), it
preserves the canonical-row and ordered-uniqueness invariants, and under
those invariants the resulting table holds at most one conversation for the
unordered pair `{a, b}`. -/
theorem conversation_pair_canonicalization (db : List Conversation) (a b : String)
    (hab : a ≠ b) (hcanon : CanonRows db) (huniq : UniqueOrderedKeys db) :
    get_or_create_between db a b = get_or_create_between db b a
    ∧ CanonRows (get_or_create_between db a b).2
    ∧ UniqueOrderedKeys (get_or_create_between db a b).2
    ∧ keyCount (get_or_create_between db a b).2 a b ≤ 1 := by
  obtain ⟨h1, h2⟩ := get_or_create_db_preserves db a b hcanon huniq
  exact ⟨get_or_create_between_symm db a b, h1, h2, keyCount_le_one _ a b h1 h2⟩

/-- Witness for C4 at a concrete input: the empty table and the pair
("alice", "bob"). -/
theorem conversation_pair_canonicalization_witness :
    get_or_create_between [] "alice" "bob" = get_or_create_between [] "bob" "alice"
    ∧ keyCount (get_or_create_between [] "alice" "bob").2 "alice" "bob" ≤ 1 := by
  have h := conversation_pair_canonicalization [] "alice" "bob" (by decide)
    (fun c hc => absurd hc (List.not_mem_nil c)) List.Pairwise.nil
  exact ⟨h.1, h.2.2.2⟩

/-! ## Connect-path lemmas (claims C2 and C3) -/

/-- `_can_join_room` succeeds exactly when the underscore-split of the room
name has at least two tokens, the username is among them, and the mutual
follow check against the code-selected other participant
(`participants[0] if participants[1] == username else participants[1]`)
passes. -/
theorem canJoinRoom_ok_true_iff (follows : String → String → Bool)
    (userExists : String → Bool) (uname roomName : String) :
    canJoinRoom follows userExists uname roomName = .ok true ↔
      ∃ p0 p1 rest, pySplit roomName '_' = p0 :: p1 :: rest ∧
        uname ∈ pySplit roomName '_' ∧
        checkMutualFollowDB follows userExists uname (if p1 = uname then p0 else p1) = true := by
  simp only [canJoinRoom]
  cases hsplit : pySplit roomName '_' with
  | nil => simp [hsplit]
  | cons p0 rest =>
      cases rest with
      | nil =>
          constructor
          · intro h
            exfalso
            by_cases he : uname = p0 <;> simp [he] at h
          · rintro ⟨q0, q1, rest'', heq, _, _⟩
            exact absurd heq (by simp)
      | cons p1 rest' =>
          by_cases hmem : uname ∈ p0 :: p1 :: rest'
          · simp only [hsplit, if_pos hmem]
            constructor
            · intro h
              refine ⟨p0, p1, rest', rfl, hmem, ?_⟩
              exact Except.ok.inj h
            · rintro ⟨q0, q1, rest'', heq, _, hcheck⟩
              obtain ⟨rfl, rfl, rfl⟩ : p0 = q0 ∧ p1 = q1 ∧ rest' = rest'' := by
                simpa using heq
              show Except.ok (checkMutualFollowDB follows userExists uname
                (if p1 = uname then p0 else p1)) = Except.ok true
              rw [hcheck]
          · simp [hsplit, hmem]

/-- `connect` reaches the success path exactly when the user is
authenticated and `_can_join_room` returns true. -/
theorem connect_joined_iff (follows : String → String → Bool) (userExists : String → Bool)
    (user : Option String) (roomName : String) :
    connect follows userExists user roomName = .joined ↔
      ∃ uname, user = some uname ∧
        canJoinRoom follows userExists uname roomName = .ok true := by
  cases user with
  | none => simp [connect]
  | some uname =>
      simp only [connect]
      cases h : canJoinRoom follows userExists uname roomName with
      | error e => simp [h]
      | ok b => cases b <;> simp [h]

/-- Claim C3 as stated: the connection is added to the room broadcast group
only when the identity is authenticated, the room name decomposes into
exactly two participant tokens one of which is the identity, and the mutual
follow check approves the pair; in every other case the connection is
closed (and no group entry is added). -/
def ConnectRequiresTwoTokens : Prop :=
  ∀ (follows : String → String → Bool) (userExists : String → Bool)
    (user : Option String) (roomName : String),
    (groupAdded (connect follows userExists user roomName) = true →
       ∃ uname p0 p1, user = some uname ∧
         pySplit roomName '_' = [p0, p1] ∧
         (uname = p0 ∨ uname = p1) ∧
         checkMutualFollowDB follows userExists uname (if p1 = uname then p0 else p1) = true)
    ∧ (groupAdded (connect follows userExists user roomName) = false →
       ∃ code, connect follows userExists user roomName = .closed code)

/-- Counterexample to C3: with an all-true follow graph, user `c` connects
to room `a_b_c`, whose name splits into three tokens, not two — yet the
code adds the connection to the broadcast group, because `_can_join_room`
never checks the token count. -/
theorem connectRequiresTwoTokens_false : ¬ ConnectRequiresTwoTokens := by
  intro h
  have hadd : groupAdded (connect (fun _ _ => true) (fun _ => true) (some "c") "a_b_c") = true := by
    decide
  obtain ⟨uname, p0, p1, _, hsplit, _, _⟩ :=
    (h (fun _ _ => true) (fun _ => true) (some "c") "a_b_c").1 hadd
  rw [show pySplit "a_b_c" '_' = ["a", "b", "c"] from by decide] at hsplit
  simpa using congrArg List.length hsplit

/-- C3 amended: the connection is added to the broadcast group iff the
identity is authenticated, the underscore-split of the room name has at
least two tokens (the count is NOT required to be exactly two), the
identity is among the tokens, and the mutual follow check against the
code-selected other token passes; otherwise the connection is closed with
4001 or 4003, or — for a member of a single-token room — the handler
raises `IndexError`, and in none of those cases is a group entry added. -/
theorem connect_group_add_iff (follows : String → String → Bool)
    (userExists : String → Bool) (user : Option String) (roomName : String) :
    (groupAdded (connect follows userExists user roomName) = true ↔
      ∃ uname p0 p1 rest, user = some uname ∧
        pySplit roomName '_' = p0 :: p1 :: rest ∧
        uname ∈ pySplit roomName '_' ∧
        checkMutualFollowDB follows userExists uname (if p1 = uname then p0 else p1) = true)
    ∧ (groupAdded (connect follows userExists user roomName) = false →
        connect follows userExists user roomName = .closed 4001 ∨
        connect follows userExists user roomName = .closed 4003 ∨
        connect follows userExists user roomName = .raisedIndexError) := by
  constructor
  · have hj : groupAdded (connect follows userExists user roomName) = true ↔
        connect follows userExists user roomName = .joined := by
      cases connect follows userExists user roomName <;> simp [groupAdded]
    rw [hj, connect_joined_iff]
    constructor
    · rintro ⟨uname, rfl, hok⟩
      obtain ⟨p0, p1, rest, h1, h2, h3⟩ :=
        (canJoinRoom_ok_true_iff follows userExists uname roomName).mp hok
      exact ⟨uname, p0, p1, rest, rfl, h1, h2, h3⟩
    · rintro ⟨uname, p0, p1, rest, rfl, h1, h2, h3⟩
      exact ⟨uname, rfl,
        (canJoinRoom_ok_true_iff follows userExists uname roomName).mpr
          ⟨p0, p1, rest, h1, h2, h3⟩⟩
  · intro _
    cases user with
    | none => exact Or.inl rfl
    | some uname =>
        simp only [connect]
        cases h : canJoinRoom follows userExists uname roomName with
        | error e => exact Or.inr (Or.inr rfl)
        | ok b =>
            cases b with
            | true =>
                rw [show connect follows userExists (some uname) roomName = .joined from by
                  simp [connect, h]] at *
                simp [groupAdded] at *
            | false => exact Or.inr (Or.inl rfl)

/-- Witness for C3 amended: user `a` in room `a_b` with a full follow graph
is added to the group; the anonymous user is closed with 4001. -/
theorem connect_group_add_iff_witness :
    (∃ uname p0 p1 rest, (some "a" : Option String) = some uname ∧
        pySplit "a_b" '_' = p0 :: p1 :: rest ∧
        uname ∈ pySplit "a_b" '_' ∧
        checkMutualFollowDB (fun _ _ => true) (fun _ => true) uname
          (if p1 = uname then p0 else p1) = true)
    ∧ (connect (fun _ _ => true) (fun _ => true) none "a_b" = .closed 4001 ∨
        connect (fun _ _ => true) (fun _ => true) none "a_b" = .closed 4003 ∨
        connect (fun _ _ => true) (fun _ => true) none "a_b" = .raisedIndexError) :=
  ⟨(connect_group_add_iff (fun _ _ => true) (fun _ => true) (some "a") "a_b").1.mp (by decide),
   (connect_group_add_iff (fun _ _ => true) (fun _ => true) none "a_b").2 (by decide)⟩

/-- Claim C2 as stated: there are at least three pairwise distinct close
codes, one for each rejection reason — anonymous identity, identity not a
participant of the room, and the mutual-follow gate refusing the pair. -/
def ThreeDistinctCloseCodes : Prop :=
  ∃ ca cb cc : Nat,
    ca ≠ cb ∧ ca ≠ cc ∧ cb ≠ cc ∧
    (∀ (follows : String → String → Bool) (userExists : String → Bool) (roomName : String),
       connect follows userExists none roomName = .closed ca) ∧
    (∀ (follows : String → String → Bool) (userExists : String → Bool) (uname roomName : String),
       uname ∉ pySplit roomName '_' →
       connect follows userExists (some uname) roomName = .closed cb) ∧
    (∀ (follows : String → String → Bool) (userExists : String → Bool) (uname roomName : String),
       uname ∈ pySplit roomName '_' →
       canJoinRoom follows userExists uname roomName = .ok false →
       connect follows userExists (some uname) roomName = .closed cc)

/-- Counterexample to C2: the non-participant rejection (user `x`, room
`a_b`, follow graph irrelevant) and the gate rejection (user `a`, room
`a_b`, empty follow graph) both close with code 4003, so no assignment of
three pairwise distinct codes exists. -/
theorem threeDistinctCloseCodes_false : ¬ ThreeDistinctCloseCodes := by
  rintro ⟨ca, cb, cc, _, _, hbc, _, hb, hc⟩
  have hcb : ConnectResult.closed cb = ConnectResult.closed 4003 := by
    rw [← hb (fun _ _ => true) (fun _ => true) "x" "a_b" (by decide)]
    decide
  have hcc : ConnectResult.closed cc = ConnectResult.closed 4003 := by
    rw [← hc (fun _ _ => false) (fun _ => true) "a" "a_b" (by decide) (by decide)]
    decide
  injection hcb with e1
  injection hcc with e2
  exact hbc (e1.trans e2.symm)

/-- C2 amended: there are exactly two distinct close codes — 4001 for an
anonymous identity and 4003 shared by both permission failures (identity
not a participant, and mutual-follow gate refusal) — so clients can
distinguish authentication failure from permission failure but not the two
permission failures from each other. -/
theorem connect_close_codes (follows : String → String → Bool)
    (userExists : String → Bool) (uname roomName : String) :
    connect follows userExists none roomName = .closed 4001
    ∧ (uname ∉ pySplit roomName '_' →
        connect follows userExists (some uname) roomName = .closed 4003)
    ∧ (uname ∈ pySplit roomName '_' →
        canJoinRoom follows userExists uname roomName = .ok false →
        connect follows userExists (some uname) roomName = .closed 4003)
    ∧ (4001 : Nat) ≠ 4003 := by
  refine ⟨rfl, ?_, ?_, by decide⟩
  · intro hnot
    have hok : canJoinRoom follows userExists uname roomName = .ok false := by
      simp only [canJoinRoom]
      rw [if_neg hnot]
    simp [connect, hok]
  · intro _ hok
    simp [connect, hok]

/-- Witness for C2 amended, at concrete rejected connections. -/
theorem connect_close_codes_witness :
    connect (fun _ _ => false) (fun _ => true) none "a_b" = .closed 4001
    ∧ connect (fun _ _ => true) (fun _ => true) (some "x") "a_b" = .closed 4003
    ∧ connect (fun _ _ => false) (fun _ => true) (some "a") "a_b" = .closed 4003 :=
  ⟨(connect_close_codes (fun _ _ => false) (fun _ => true) "x" "a_b").1,
   (connect_close_codes (fun _ _ => true) (fun _ => true) "x" "a_b").2.1 (by decide),
   (connect_close_codes (fun _ _ => false) (fun _ => true) "a" "a_b").2.2.1 (by decide) (by decide)⟩

/-! ## Mark-all-read lemmas (claim C7) -/

theorem markAllRead_rows (reader : String) (now : Nat) :
    ∀ msgs : List MsgRow, (markAllRead reader now msgs).2 = msgs.map (markRow reader now)
  | [] => rfl
  | m :: ms => by
      by_cases h : (!m.isRead && decide (m.sender ≠ reader)) = true
      · simp only [markAllRead, markRow, if_pos h, List.map_cons,
          markAllRead_rows reader now ms]
      · simp only [markAllRead, markRow, if_neg h, List.map_cons,
          markAllRead_rows reader now ms]

theorem markAllRead_count (reader : String) (now : Nat) :
    ∀ msgs : List MsgRow,
      (markAllRead reader now msgs).1
        = (msgs.filter (fun m => !m.isRead && m.sender ≠ reader)).length
  | [] => rfl
  | m :: ms => by
      by_cases h : (!m.isRead && decide (m.sender ≠ reader)) = true
      · simp only [markAllRead, List.filter_cons, if_pos h, List.length_cons,
          markAllRead_count reader now ms]
      · simp only [markAllRead, List.filter_cons, if_neg h,
          markAllRead_count reader now ms]

/-- Once a row has gone through the update, it no longer matches the
`is_read=False, sender != reader` filter. -/
theorem markRow_not_matched (reader : String) (now : Nat) (m : MsgRow) :
    (!(markRow reader now m).isRead && decide ((markRow reader now m).sender ≠ reader)) = false := by
  unfold markRow
  by_cases h : (!m.isRead && decide (m.sender ≠ reader)) = true
  · rw [if_pos h]
    simp
  · rw [if_neg h]
    simpa using h

theorem markAllRead_of_unmatched (reader : String) (now : Nat) :
    ∀ msgs : List MsgRow,
      (∀ m ∈ msgs, (!m.isRead && decide (m.sender ≠ reader)) = false) →
      markAllRead reader now msgs = (0, msgs)
  | [], _ => rfl
  | m :: ms, h => by
      have hm := h m (List.mem_cons_self m ms)
      have hm' : ¬((!m.isRead && decide (m.sender ≠ reader)) = true) := by
        rw [hm]
        simp
      have hms := markAllRead_of_unmatched reader now ms
        (fun d hd => h d (List.mem_cons_of_mem m hd))
      simp only [markAllRead, if_neg hm', hms]

/-- C7: `MarkMessagesReadView` flips exactly the unread rows not sent by the
reader (stamping `read_at` with the update time), returns the number of
rows the filter matched, and is idempotent — run immediately again it
matches zero rows and leaves the table unchanged. -/
theorem mark_all_read_spec (reader : String) (t1 t2 : Nat) (msgs : List MsgRow) :
    (markAllRead reader t1 msgs).1
      = (msgs.filter (fun m => !m.isRead && m.sender ≠ reader)).length
    ∧ (markAllRead reader t1 msgs).2 = msgs.map (markRow reader t1)
    ∧ markAllRead reader t2 (markAllRead reader t1 msgs).2
        = (0, (markAllRead reader t1 msgs).2) := by
  refine ⟨markAllRead_count reader t1 msgs, markAllRead_rows reader t1 msgs, ?_⟩
  apply markAllRead_of_unmatched
  intro m hm
  rw [markAllRead_rows reader t1 msgs] at hm
  obtain ⟨d, _, rfl⟩ := List.mem_map.mp hm
  exact markRow_not_matched reader t1 d

/-! ## Broadcast fan-out lemmas (claim C8) -/

theorem deliverToGroup_total (members : List String) (f : String → OutFrame) :
    (deliverToGroup members (fun me => some (f me))).map Prod.fst = members := by
  induction members with
  | nil => rfl
  | cons m ms ih => simpa [deliverToGroup, List.filterMap_cons] using ih

theorem deliverToGroup_guard (members : List String) (p : String → Prop) [DecidablePred p]
    (f : String → OutFrame) :
    (deliverToGroup members (fun me => if p me then some (f me) else none)).map Prod.fst
      = members.filter (fun me => p me) := by
  induction members with
  | nil => rfl
  | cons m ms ih =>
      by_cases h : p m <;>
        simpa [deliverToGroup, List.filterMap_cons, List.filter_cons, h] using ih

/-- C8: a `chat_message` group event is written to every joined connection
including the sender, while typing indicators, read receipts and
join/leave notices are written to exactly the joined connections whose
username differs from the originating subject. -/
theorem broadcast_self_exclusion (members : List String)
    (content sender ts username reader : String) (isTyping : Bool) (ids : List String) :
    (deliverToGroup members (fun me => chatMessageWs me content sender ts)).map Prod.fst
      = members
    ∧ (deliverToGroup members (fun me => typingIndicatorWs me username isTyping)).map Prod.fst
      = members.filter (fun me => username ≠ me)
    ∧ (deliverToGroup members (fun me => readReceiptWs me reader ids)).map Prod.fst
      = members.filter (fun me => reader ≠ me)
    ∧ (deliverToGroup members (fun me => userJoinedWs me username)).map Prod.fst
      = members.filter (fun me => username ≠ me)
    ∧ (deliverToGroup members (fun me => userLeftWs me username)).map Prod.fst
      = members.filter (fun me => username ≠ me) := by
  refine ⟨deliverToGroup_total members _, ?_, ?_, ?_, ?_⟩ <;>
    first
      | exact deliverToGroup_guard members (fun me => username ≠ me) (fun _ => _)
      | exact deliverToGroup_guard members (fun me => reader ≠ me) (fun _ => _)

/-! ## Disconnect-path lemmas (claim C9) -/

/-- C9: any connection attempt `connect` rejects with a close code has
already stored the room group name (consumers.py:41 runs before every
check), so the disconnect handler still broadcasts a `user_left` event for
that identity to the room group and then discards the channel from the
group; the discard on a registry that never held the channel is a no-op
rather than an error. -/
theorem rejected_connect_user_left (follows : String → String → Bool)
    (userExists : String → Bool) (user : Option String) (roomName : String) (code : Nat)
    (hrej : connect follows userExists user roomName = .closed code) :
    disconnect (some (connectState user roomName)) =
      [.groupSend ("chat_" ++ roomName) (.userLeft (usernameAttr user)),
       .groupDiscard ("chat_" ++ roomName)]
    ∧ ∀ (reg : List (String × String)) (channel : String),
        ("chat_" ++ roomName, channel) ∉ reg →
        groupDiscardReg reg ("chat_" ++ roomName) channel = reg := by
  refine ⟨rfl, ?_⟩
  intro reg channel hnm
  unfold groupDiscardReg
  rw [List.filter_eq_self]
  intro p hp
  obtain ⟨x, y⟩ := p
  have hne : (x, y) ≠ ("chat_" ++ roomName, channel) := fun he => hnm (he ▸ hp)
  by_cases h1 : x = "chat_" ++ roomName
  · by_cases h2 : y = channel
    · exact absurd (by rw [h1, h2]) hne
    · simp [h1, h2]
  · simp [h1]

/-- Witness for C9: the anonymous connection to room `a_b` is rejected with
4001, and its disconnect still emits the `user_left` broadcast. -/
theorem rejected_connect_user_left_witness :
    disconnect (some (connectState none "a_b")) =
      [.groupSend ("chat_" ++ "a_b") (.userLeft (usernameAttr none)),
       .groupDiscard ("chat_" ++ "a_b")]
    ∧ groupDiscardReg [] ("chat_" ++ "a_b") "chan7" = [] := by
  have h := rejected_connect_user_left (fun _ _ => true) (fun _ => true) none "a_b" 4001
    (by decide)
  exact ⟨h.1, h.2 [] "chan7" (by simp)⟩

/-! ## Chat-message validation (claims C5 and C1) -/

theorem dropWhile_replicate_of_neg {p : Char → Bool} {c : Char} (hc : p c = false) :
    ∀ n : Nat, (List.replicate n c).dropWhile p = List.replicate n c
  | 0 => rfl
  | Nat.succ k => by
      rw [List.replicate_succ, List.dropWhile_cons, hc]
      simp

/-- Stripping a message made of one repeated non-whitespace character is the
identity. -/
theorem pyStrip_replicate (n : Nat) (c : Char) (hc : isPySpace c = false) :
    pyStrip (String.mk (List.replicate n c)) = String.mk (List.replicate n c) := by
  unfold pyStrip
  rw [show (String.mk (List.replicate n c)).data = List.replicate n c from rfl,
    dropWhile_replicate_of_neg hc, List.reverse_replicate,
    dropWhile_replicate_of_neg hc, List.reverse_replicate]

theorem pyLen_replicate (n : Nat) (c : Char) :
    pyLen (String.mk (List.replicate n c)) = n := by
  unfold pyLen
  rw [show (String.mk (List.replicate n c)).data = List.replicate n c from rfl,
    List.length_replicate]

/-- C5: the `chat_message` validation is exact at the 2000-character
boundary on the trimmed content — 2000 trimmed characters are accepted and
broadcast, while trimmed content that is empty or 2001 characters or longer
draws a sender-only error frame (`send_error` writes to this connection
only) with no group broadcast; no constructor of the result performs a
database write, so no Message is persisted on any path. -/
theorem chat_message_length_policy (username now : String) (contentField : Option String) :
    (pyLen (pyStrip (contentField.getD "")) = 2000 →
       handleChatMessage username now contentField
         = .broadcast (.chatMessage (pyStrip (contentField.getD "")) username now))
    ∧ (pyStrip (contentField.getD "") = "" →
       handleChatMessage username now contentField
         = .senderError "Message content cannot be empty")
    ∧ (2001 ≤ pyLen (pyStrip (contentField.getD "")) →
       handleChatMessage username now contentField
         = .senderError "Message too long (max 2000 characters)") := by
  refine ⟨?_, ?_, ?_⟩
  · intro h
    have hne : ¬(pyStrip (contentField.getD "") = "") := by
      intro he
      rw [he] at h
      simp [pyLen] at h
    have hle : ¬(pyLen (pyStrip (contentField.getD "")) > 2000) := by omega
    simp only [handleChatMessage]
    rw [if_neg hne, if_neg hle]
  · intro h
    simp only [handleChatMessage]
    rw [if_pos h]
  · intro h
    have hne : ¬(pyStrip (contentField.getD "") = "") := by
      intro he
      rw [he] at h
      simp [pyLen] at h
    have hgt : pyLen (pyStrip (contentField.getD "")) > 2000 := by omega
    simp only [handleChatMessage]
    rw [if_neg hne, if_pos hgt]

/-- Witness for C5 at the concrete boundary inputs: 2000 characters of `a`
accepted, a whitespace-only body rejected, 2001 characters of `b`
rejected. -/
theorem chat_message_length_policy_witness :
    handleChatMessage "alice" "T" (some longContent)
      = .broadcast (.chatMessage (pyStrip ((some longContent).getD "")) "alice" "T")
    ∧ handleChatMessage "alice" "T" (some "  ")
      = .senderError "Message content cannot be empty"
    ∧ handleChatMessage "alice" "T" (some overlongContent)
      = .senderError "Message too long (max 2000 characters)" := by
  have h2000 : pyLen (pyStrip ((some longContent).getD "")) = 2000 := by
    show pyLen (pyStrip longContent) = 2000
    rw [show longContent = String.mk (List.replicate 2000 'a') from rfl,
      pyStrip_replicate 2000 'a' (by decide), pyLen_replicate]
  have h2001 : 2001 ≤ pyLen (pyStrip ((some overlongContent).getD "")) := by
    show 2001 ≤ pyLen (pyStrip overlongContent)
    rw [show overlongContent = String.mk (List.replicate 2001 'b') from rfl,
      pyStrip_replicate 2001 'b' (by decide), pyLen_replicate]
  exact ⟨(chat_message_length_policy "alice" "T" (some longContent)).1 h2000,
    (chat_message_length_policy "alice" "T" (some "  ")).2.1 (by decide),
    (chat_message_length_policy "alice" "T" (some overlongContent)).2.2 h2001⟩

/-- C1 (divergence evidence): a validated `chat_message` frame is broadcast
with only content, sender and server timestamp — the group event type has
no message-identifier field because the source never puts one in the dict
(consumers.py:152 is commented out), and `RecvResult` has no persistence
component because the save call (consumers.py:141-142) is commented out —
and the per-socket forwarding handler emits `message_id` as
`event.get('message_id')`, which is always `none`. -/
theorem chat_send_not_persisted :
    receiveParsed "alice" "2024-01-01T00:00:00Z" ⟨some "chat_message", some "hi", []⟩
      = .broadcast (.chatMessage "hi" "alice" "2024-01-01T00:00:00Z")
    ∧ chatMessageWs "bob" "hi" "alice" "2024-01-01T00:00:00Z"
      = some (.chatMessage "hi" "alice" "2024-01-01T00:00:00Z" none) :=
  ⟨by decide, rfl⟩

/-! ## Missing type discriminator (claim C10) -/

theorem head_ne_of_append {msg pre s : String} (hpre : pre.data ≠ [])
    (hhead : msg.data.head? ≠ pre.data.head?) : msg ≠ pre ++ s := by
  intro he
  apply hhead
  rw [he, String.data_append, List.head?_append_of_ne_nil _ hpre]

/-- Claim C10 as stated: a parsed inbound frame with no `type` field is
dispatched as a `chat_message` and produces no error frame at all. -/
def UntypedFrameClaim : Prop :=
  ∀ (username now : String) (content : Option String) (ids : List String),
    receiveParsed username now ⟨none, content, ids⟩ = handleChatMessage username now content
    ∧ ∀ e, receiveParsed username now ⟨none, content, ids⟩ ≠ .senderError e

/-- Counterexample to C10: the frame `{}` (no type, no content) defaults to
the chat-message handler, whose own validation answers with the
empty-content error frame — so such a frame can produce an error frame. -/
theorem untypedFrameClaim_false : ¬ UntypedFrameClaim := by
  intro h
  exact (h "alice" "T" none []).2 "Message content cannot be empty" (by decide)

/-- C10 amended: a frame lacking the `type` field is dispatched exactly as
an explicit `chat_message` frame (the discriminator defaults via
`data.get('type', 'chat_message')`), and is never answered with the
unknown-type error frame; only the chat handler validation errors are
possible. -/
theorem untyped_frame_dispatch (username now : String) (content : Option String)
    (ids : List String) :
    receiveParsed username now ⟨none, content, ids⟩ = handleChatMessage username now content
    ∧ receiveParsed username now ⟨none, content, ids⟩
        = receiveParsed username now ⟨some "chat_message", content, ids⟩
    ∧ ∀ s, receiveParsed username now ⟨none, content, ids⟩
        ≠ .senderError ("Unknown message type: " ++ s) := by
  refine ⟨rfl, rfl, ?_⟩
  intro s h
  have h' : handleChatMessage username now content
      = .senderError ("Unknown message type: " ++ s) := h
  revert h'
  simp only [handleChatMessage]
  by_cases h1 : pyStrip (content.getD "") = ""
  · rw [if_pos h1]
    intro h'
    exact head_ne_of_append (by decide) (by decide) (RecvResult.senderError.inj h')
  · rw [if_neg h1]
    by_cases h2 : pyLen (pyStrip (content.getD "")) > 2000
    · rw [if_pos h2]
      intro h'
      exact head_ne_of_append (by decide) (by decide) (RecvResult.senderError.inj h')
    · rw [if_neg h2]
      intro h'
      exact RecvResult.noConfusion h'

/-- Witness for C10 amended, at a concrete untyped frame carrying "hi". -/
theorem untyped_frame_dispatch_witness :
    receiveParsed "alice" "T" ⟨none, some "hi", []⟩
      = handleChatMessage "alice" "T" (some "hi")
    ∧ receiveParsed "alice" "T" ⟨none, some "hi", []⟩
        ≠ .senderError ("Unknown message type: " ++ "chat_message") :=
  ⟨(untyped_frame_dispatch "alice" "T" (some "hi") []).1,
   (untyped_frame_dispatch "alice" "T" (some "hi") []).2.2 "chat_message"⟩

/-! ## Middleware lemmas (claim C6) -/

theorem ite_pure_ne_error {c : Prop} [Decidable c] (x y : Option String) :
    (if c then (Except.ok x : Except Unit (Option String)) else .ok y) ≠ .error () := by
  by_cases h : c
  · rw [if_pos h]
    exact fun hc => Except.noConfusion hc
  · rw [if_neg h]
    exact fun hc => Except.noConfusion hc

/-- Claim C6 (the never-throw part) as stated: for every possible handshake
metadata, token extraction and validation never raise to the caller. -/
def ExtractionNeverThrows : Prop :=
  ∀ (decode : String → Option (Option String)) (userExists : String → Bool)
    (headers : List (String × String)) (queryString : String),
    resolveUser decode userExists headers queryString ≠ .error ()

/-- Counterexample to C6: with no cookies and query string `a=b=c`, the item
`a=b=c` contains two `=` so `dict(item.split('=') ...)` raises
`ValueError`, which propagates out of the middleware. -/
theorem extractionNeverThrows_false : ¬ ExtractionNeverThrows := fun h =>
  h (fun _ => none) (fun _ => false) [] "a=b=c" (by decide)

/-- C6 amended: the cookie token takes precedence and, when present and
non-empty, resolution cannot raise; when the query string must be
consulted, resolution does not raise provided every `&`-separated item
splits on `=` into at most two parts; and token validation itself never
raises — an invalid token, a missing subject claim, or an unknown subject
each resolve to the anonymous identity. -/
theorem resolveUser_spec (decode : String → Option (Option String))
    (userExists : String → Bool) (headers : List (String × String)) (queryString : String) :
    (∀ t, dictGet (parseCookies headers) "access_token" = some t → t ≠ "" →
       resolveUser decode userExists headers queryString
         = .ok (get_user_from_token decode userExists t))
    ∧ ((∀ item ∈ pySplit queryString '&', (pySplit item '=').length ≤ 2) →
       resolveUser decode userExists headers queryString ≠ .error ())
    ∧ (∀ t, decode t = none → get_user_from_token decode userExists t = none)
    ∧ (∀ t, decode t = some none → get_user_from_token decode userExists t = none)
    ∧ (∀ t uid, decode t = some (some uid) → userExists uid = false →
       get_user_from_token decode userExists t = none) := by
  refine ⟨?_, ?_, ?_, ?_, ?_⟩
  · intro t hct hne
    simp only [resolveUser, hct, if_neg hne]
    show (if t = "" then (pure none : Except Unit (Option String))
        else pure (get_user_from_token decode userExists t))
      = Except.ok (get_user_from_token decode userExists t)
    rw [if_neg hne]
    rfl
  · intro hwf
    have hfalse : (((pySplit queryString '&').filter
        (fun item => '=' ∈ item.data)).any
        (fun item => (pySplit item '=').length > 2)) = false := by
      rw [List.any_eq_false]
      intro item hitem
      have hmem := (List.mem_filter.mp hitem).1
      have := hwf item hmem
      simp only [decide_eq_true_eq]
      omega
    have hq : getTokenFromQuery queryString ≠ .error () := by
      show ¬ ((if (((pySplit queryString '&').filter (fun item => '=' ∈ item.data)).any
            (fun item => (pySplit item '=').length > 2)) = true
          then (Except.error () : Except Unit (Option String))
          else Except.ok (dictGet (((pySplit queryString '&').filter
              (fun item => '=' ∈ item.data)).map
            (fun item => match pySplit item '=' with | [k, v] => (k, v) | _ => ("", "")))
            "token")) = Except.error ())
      rw [hfalse, if_neg (by simp)]
      exact fun hc => Except.noConfusion hc
    obtain ⟨v, hv⟩ : ∃ v, getTokenFromQuery queryString = .ok v := by
      cases hg : getTokenFromQuery queryString with
      | error e => cases e; exact absurd hg hq
      | ok v => exact ⟨v, rfl⟩
    cases hct : dictGet (parseCookies headers) "access_token" with
    | none =>
        simp only [resolveUser, hct, hv]
        cases v with
        | none => exact fun hc => Except.noConfusion hc
        | some t => exact ite_pure_ne_error _ _
    | some t =>
        by_cases ht : t = ""
        · subst ht
          simp only [resolveUser, hct, if_pos rfl, hv]
          cases v with
          | none => exact fun hc => Except.noConfusion hc
          | some t' => exact ite_pure_ne_error _ _
        · simp only [resolveUser, hct, if_neg ht]
          exact ite_pure_ne_error _ _
  · intro t h
    simp [get_user_from_token, h]
  · intro t h
    simp [get_user_from_token, h]
  · intro t uid h hue
    simp [get_user_from_token, h, hue]

/-- Witness for C6 amended: a non-empty cookie token wins even over a
malformed query string; a well-formed query string cannot raise; an
unknown token resolves to anonymous. -/
theorem resolveUser_spec_witness :
    resolveUser (fun _ => none) (fun _ => false)
        [("cookie", "access_token=tok")] "a=b=c"
      = .ok (get_user_from_token (fun _ => none) (fun _ => false) "tok")
    ∧ resolveUser (fun _ => none) (fun _ => false) [] "token=t1" ≠ .error ()
    ∧ get_user_from_token (fun _ => none) (fun _ => false) "zz" = none :=
  ⟨(resolveUser_spec (fun _ => none) (fun _ => false)
      [("cookie", "access_token=tok")] "a=b=c").1 "tok" (by decide) (by decide),
   (resolveUser_spec (fun _ => none) (fun _ => false) [] "token=t1").2.1 (by decide),
   (resolveUser_spec (fun _ => none) (fun _ => false) [] "token=t1").2.2.1 "zz" rfl⟩

end SocialChat
